import Mathlib

/-!
Verification of the Sphinx configuration module `docs/conf.py` of the
biowc-pathwaygraph repository.

The module is a sequence of top-level Python statements; in the actual file
every statement is an assignment whose right-hand side is a literal string or
a literal list of strings.  We embed the module as a list of statements over
a small expression language (literal values and variable reads), and give it
the usual sequential execution semantics over an environment mapping names to
values.  The initial environment is a parameter, standing for whatever
bindings the embedding interpreter provides before the module runs.
-/

/-- A configuration value: a string, or a list of strings. -/
inductive ConfValue where
  | str (s : String)
  | strList (l : List String)
deriving DecidableEq, Repr

/-- Right-hand sides that can appear in the module: a literal constant, or a
read of a previously bound name (the latter never occurs in `conf.py`, but is
part of the language so that literal-ness is a real property). -/
inductive PyExpr where
  | lit (v : ConfValue)
  | var (name : String)
deriving DecidableEq, Repr

/-- Top-level Python statements relevant to a configuration module. -/
inductive PyStmt where
  | assign (name : String) (rhs : PyExpr)
  | importStmt (modName : String)
  | defStmt (name : String)
  | classStmt (name : String)
deriving DecidableEq, Repr

/-- An environment maps variable names to their current value, if bound. -/
def Env : Type := String → Option ConfValue

/-- Evaluate an expression in an environment. -/
def evalExpr (env : Env) : PyExpr → Option ConfValue
  | .lit v => some v
  | .var n => env n

/-- Execute one statement: an assignment updates the environment at the
assigned name (when its right-hand side evaluates); the other statement
forms bind nothing in this model. -/
def execStmt (env : Env) : PyStmt → Env
  | .assign n e =>
      match evalExpr env e with
      | some v => fun m => if m = n then some v else env m
      | none => env
  | .importStmt _ => env
  | .defStmt _ => env
  | .classStmt _ => env

/-- Execute a list of statements in order. -/
def runModule (env : Env) : List PyStmt → Env
  | [] => env
  | s :: rest => runModule (execStmt env s) rest

/-- The module `docs/conf.py`, statement by statement, in source order.
Comments and blank lines are not statements and do not appear. -/
def confModule : List PyStmt :=
  [ .assign "project" (.lit (.str "biowc-pathwaygraph")),
    .assign "copyright" (.lit (.str "2023, Julian Müller")),
    .assign "author" (.lit (.str "Julian Müller")),
    .assign "extensions" (.lit (.strList ["sphinx_js"])),
    .assign "primary_domain" (.lit (.str "js")),
    .assign "js_language" (.lit (.str "typescript")),
    .assign "js_source_path" (.lit (.str "../src")),
    .assign "templates_path" (.lit (.strList ["_templates"])),
    .assign "exclude_patterns" (.lit (.strList ["_build", "Thumbs.db", ".DS_Store"])),
    .assign "html_theme" (.lit (.str "alabaster")),
    .assign "html_static_path" (.lit (.strList ["_static"])) ]

/-- The environment after running `conf.py` from an initial environment. -/
def confEnv (env0 : Env) : Env := runModule env0 confModule

/-- The environment in which nothing is bound before the module runs. -/
def emptyEnv : Env := fun _ => none

/-- The eleven configuration-variable names of the contract, in source order. -/
def configNames : List String :=
  [ "project", "copyright", "author", "extensions", "primary_domain",
    "js_language", "js_source_path", "templates_path", "exclude_patterns",
    "html_theme", "html_static_path" ]

/-- Is the looked-up value a bound string? -/
def isStrVal : Option ConfValue → Bool
  | some (.str _) => true
  | _ => false

/-- Is the looked-up value a bound list of strings? -/
def isStrListVal : Option ConfValue → Bool
  | some (.strList _) => true
  | _ => false

/-- Is the looked-up value bound and non-empty (a non-empty string, or a
non-empty list all of whose elements are non-empty strings)? -/
def nonEmptyVal : Option ConfValue → Bool
  | some (.str s) => !s.isEmpty
  | some (.strList l) => !l.isEmpty && l.all (fun s => !s.isEmpty)
  | none => false

/-- The name, if any, that a statement assigns. -/
def assignedName : PyStmt → Option String
  | .assign n _ => some n
  | _ => none

/-- Is the statement an assignment whose right-hand side is a literal? -/
def isLitAssign : PyStmt → Bool
  | .assign _ (.lit _) => true
  | _ => false

/-- Prefix a string value with the copyright year; other values unchanged. -/
def prependYear : ConfValue → ConfValue
  | .str s => .str ("2023, " ++ s)
  | v => v

/-- C1: the configuration module binds all eleven contract variables, the
seven scalar ones to strings and the four path/pattern/extension ones to
lists of strings. -/
theorem config_contract_shapes :
    isStrVal (confEnv emptyEnv "project") = true ∧
    isStrVal (confEnv emptyEnv "copyright") = true ∧
    isStrVal (confEnv emptyEnv "author") = true ∧
    isStrVal (confEnv emptyEnv "primary_domain") = true ∧
    isStrVal (confEnv emptyEnv "js_language") = true ∧
    isStrVal (confEnv emptyEnv "js_source_path") = true ∧
    isStrVal (confEnv emptyEnv "html_theme") = true ∧
    isStrListVal (confEnv emptyEnv "extensions") = true ∧
    isStrListVal (confEnv emptyEnv "templates_path") = true ∧
    isStrListVal (confEnv emptyEnv "exclude_patterns") = true ∧
    isStrListVal (confEnv emptyEnv "html_static_path") = true :=
  ⟨rfl, rfl, rfl, rfl, rfl, rfl, rfl, rfl, rfl, rfl, rfl⟩

/-- C2: every one of the eleven configuration variables is bound and
non-empty: each string value is non-empty, and each list value is a
non-empty list whose elements are all non-empty strings. -/
theorem config_values_nonEmpty :
    configNames.all (fun n => nonEmptyVal (confEnv emptyEnv n)) = true := rfl

/-- C3: the project-metadata variables hold the exact constants
`biowc-pathwaygraph`, `Julian Müller` and `2023, Julian Müller`. -/
theorem project_metadata_constants :
    confEnv emptyEnv "project" = some (.str "biowc-pathwaygraph") ∧
    confEnv emptyEnv "author" = some (.str "Julian Müller") ∧
    confEnv emptyEnv "copyright" = some (.str "2023, Julian Müller") :=
  ⟨rfl, rfl, rfl⟩

/-- C4: exactly one extension is selected, the TypeScript API-documentation
extractor: `extensions` is the one-element list `['sphinx_js']` and
`js_language` is `'typescript'`. -/
theorem single_sphinx_js_extension :
    confEnv emptyEnv "extensions" = some (.strList ["sphinx_js"]) ∧
    confEnv emptyEnv "js_language" = some (.str "typescript") :=
  ⟨rfl, rfl⟩

/-- C5: the language and source-location fields hold the exact constants
`primary_domain = 'js'`, `js_language = 'typescript'`,
`js_source_path = '../src'`. -/
theorem language_and_source_constants :
    confEnv emptyEnv "primary_domain" = some (.str "js") ∧
    confEnv emptyEnv "js_language" = some (.str "typescript") ∧
    confEnv emptyEnv "js_source_path" = some (.str "../src") :=
  ⟨rfl, rfl, rfl⟩

/-- C6: the HTML-output configuration holds the exact constants
`html_theme = 'alabaster'`, `html_static_path = ['_static']`,
`templates_path = ['_templates']`. -/
theorem html_output_constants :
    confEnv emptyEnv "html_theme" = some (.str "alabaster") ∧
    confEnv emptyEnv "html_static_path" = some (.strList ["_static"]) ∧
    confEnv emptyEnv "templates_path" = some (.strList ["_templates"]) :=
  ⟨rfl, rfl, rfl⟩

/-- C7: `exclude_patterns` is the three-element list
`['_build', 'Thumbs.db', '.DS_Store']`, in exactly that order. -/
theorem exclude_patterns_constant :
    confEnv emptyEnv "exclude_patterns" =
      some (.strList ["_build", "Thumbs.db", ".DS_Store"]) := rfl

/-- C8: evaluation of the module is deterministic and input-independent:
every statement is an assignment of a literal, and the value of each of the
eleven configuration variables after running the module is the same for any
two initial environments. -/
theorem confEnv_input_independent (env1 env2 : Env) (n : String)
    (h : n ∈ configNames) :
    (∀ s ∈ confModule, isLitAssign s = true) ∧
    confEnv env1 n = confEnv env2 n := by
  refine ⟨by decide, ?_⟩
  simp only [configNames, List.mem_cons, List.not_mem_nil, or_false] at h
  rcases h with rfl | rfl | rfl | rfl | rfl | rfl | rfl | rfl | rfl | rfl | rfl <;> rfl

/-- Witness for C8 at concrete initial environments and the name
`project`. -/
theorem confEnv_input_independent_witness :
    (∀ s ∈ confModule, isLitAssign s = true) ∧
    confEnv emptyEnv "project" =
      confEnv (fun _ => some (.str "unrelated")) "project" :=
  confEnv_input_independent emptyEnv (fun _ => some (.str "unrelated"))
    "project" (by decide)

/-- C9: the module's top level is exactly the eleven assignments: every
statement is an assignment, the assigned names are exactly the eleven
configuration names in order, and no name is assigned twice. -/
theorem confModule_only_the_eleven_assignments :
    confModule.all (fun s => (assignedName s).isSome) = true ∧
    confModule.filterMap assignedName = configNames ∧
    configNames.Nodup :=
  ⟨rfl, rfl, by decide⟩

/-- C10: the copyright string is the author string prefixed with the year:
`copyright` equals `'2023, '` concatenated with the value of `author`. -/
theorem copyright_is_year_then_author :
    confEnv emptyEnv "copyright" =
      Option.map prependYear (confEnv emptyEnv "author") ∧
    confEnv emptyEnv "author" = some (.str "Julian Müller") ∧
    confEnv emptyEnv "copyright" = some (.str ("2023, " ++ "Julian Müller")) :=
  ⟨rfl, rfl, rfl⟩
